import Mathlib

/-!
Verification of the IndexTracker proxy/session/batch-orchestration core.

The repository bundles several serverless handler variants:
* `src/unnamed/part_000` variant A (lines 1-267): simple batch handler
  (`fetchSingleSymbol`, chunk loop with deadline, compile, 200/207 status).
* `src/unnamed/part_000` variant B (lines 268-537): enhanced batch handler
  (`getSessionCookies` with retry, `fetchNseData`, endpoint validation,
  200/207/502 status, 503 on session failure).
* `src/unnamed/part_000` variant C (lines 721-1095): simple batch handler
  with a 3-wide window, 50s deadline and the same 200/207 status rule.
* `src/api/nse-proxy.js` variant A (lines 1-265): single-symbol proxy with
  session establishment; variant B (lines 266-377): single-symbol proxy
  without session establishment.

Network and wall-clock behaviour are inputs of the embedding: an oracle
gives the upstream response (or rejection) of each outbound request, and a
function gives the elapsed wall-clock time observed at each window
boundary.  Everything else is translated directly from the JavaScript.
-/

/-- An upstream HTTP response as observed by the JavaScript `fetch` caller:
status, status text, the value of `await response.text()`, the result of
`await response.json()` (an exception message or the parsed payload, kept
opaque as a string), the `set-cookie` header (empty when absent) and the
`content-type` header (empty when absent). -/
structure HttpResponse where
  status : Nat
  statusText : String
  bodyText : String
  bodyJson : Except String String
  setCookie : String
  contentType : String

/-- Outcome of one outbound `fetchWithTimeout` call: either a response or a
rejection (network-level failure or timeout) carrying the error message. -/
inductive NetOutcome where
  | resp (r : HttpResponse)
  | fail (msg : String)

/-- JavaScript `response.ok`: status in the range 200-299. -/
def HttpResponse.okStatus (r : HttpResponse) : Bool :=
  decide (200 ≤ r.status) && decide (r.status < 300)

/-- Per-symbol result object produced by the fetchers
(`{symbol, success, error?, details?, data?}`; the `timestamp` field, a pure
wall-clock reading, is not modelled). -/
structure FetchResult where
  symbol : String
  success : Bool
  error : Option String := none
  details : Option String := none
  data : Option String := none
deriving DecidableEq

/-- Failure object with only `symbol`, `success: false` and `error`: shape of
the generic catch handlers, of the timeout entries of the chunk loops and of
the invalid-endpoint early return of `fetchNseData`. -/
def genericFailure (symbol msg : String) : FetchResult :=
  { symbol := symbol, success := false, error := some msg }

/-- JavaScript `try { body } catch (e) { handler }` where `handler` itself
never throws: exceptions are `Except.error`. -/
def jsTryCatch (body : Except String FetchResult)
    (handler : String → Except String FetchResult) : Except String FetchResult :=
  match body with
  | Except.ok r => Except.ok r
  | Except.error m => handler m

/-- Try-block of `fetchSingleSymbol` (part_000 lines 97-141, variant A): a
rejected fetch or a rejected `response.json()` throws; a non-2xx response
returns a failure object recording the HTTP status; a parseable 2xx response
returns a success object. -/
def fetchSingleSymbolTry (symbol : String) (net : NetOutcome) : Except String FetchResult :=
  match net with
  | NetOutcome.fail m => Except.error m
  | NetOutcome.resp r =>
    if r.okStatus = false then
      Except.ok
        { symbol := symbol, success := false,
          error := some ("HTTP " ++ toString r.status ++ ": " ++ r.statusText),
          details := some (r.bodyText.take 200) }
    else
      match r.bodyJson with
      | Except.error m => Except.error m
      | Except.ok d =>
        Except.ok { symbol := symbol, success := true, data := some d }

/-- `fetchSingleSymbol` as its caller sees it (part_000 lines 96-152,
variant A): the try-block wrapped in the catch-all handler that converts any
exception into a failure object. -/
def fetchSingleSymbolJS (symbol : String) (net : NetOutcome) : Except String FetchResult :=
  jsTryCatch (fetchSingleSymbolTry symbol net)
    (fun m => Except.ok (genericFailure symbol m))

/-- Total form of `fetchSingleSymbol`; the error branch is unreachable and
coincides with the catch handler. -/
def fetchSingleSymbol (symbol : String) (net : NetOutcome) : FetchResult :=
  match fetchSingleSymbolJS symbol net with
  | Except.ok r => r
  | Except.error m => genericFailure symbol m

/-- Try-block of variant C `fetchSingleSymbol` (part_000 lines 909-971): as
variant A, but the details of a non-2xx response report an HTML error page
when the content type contains the substring text/html. -/
def fetchSingleSymbolCTry (symbol : String) (net : NetOutcome) : Except String FetchResult :=
  match net with
  | NetOutcome.fail m => Except.error m
  | NetOutcome.resp r =>
    if r.okStatus = false then
      Except.ok
        { symbol := symbol, success := false,
          error := some ("HTTP " ++ toString r.status ++ ": " ++ r.statusText),
          details := some (if 1 < (r.contentType.splitOn ("text/html")).length
            then "NSE returned HTML error page" else r.bodyText.take 200) }
    else
      match r.bodyJson with
      | Except.error m => Except.error m
      | Except.ok d =>
        Except.ok { symbol := symbol, success := true, data := some d }

/-- Variant C `fetchSingleSymbol` (part_000 lines 908-982) with its
catch-all handler inlined. -/
def fetchSingleSymbolC (symbol : String) (net : NetOutcome) : FetchResult :=
  match jsTryCatch (fetchSingleSymbolCTry symbol net)
      (fun m => Except.ok (genericFailure symbol m)) with
  | Except.ok r => r
  | Except.error m => genericFailure symbol m

/-- Keys of `ENDPOINT_CONFIG` of the enhanced batch variant
(part_000 lines 290-304). -/
def endpointKeysB : List String := ["quote", "option-chain", "chart"]

/-- Try-block of `fetchNseData` (part_000 lines 407-435): same outcome
classification as `fetchSingleSymbolTry` except that a non-2xx failure
records the status without the status text. -/
def fetchNseDataTry (symbol : String) (net : NetOutcome) : Except String FetchResult :=
  match net with
  | NetOutcome.fail m => Except.error m
  | NetOutcome.resp r =>
    if r.okStatus = false then
      Except.ok
        { symbol := symbol, success := false,
          error := some ("HTTP Error: " ++ toString r.status),
          details := some (r.bodyText.take 200) }
    else
      match r.bodyJson with
      | Except.error m => Except.error m
      | Except.ok d =>
        Except.ok { symbol := symbol, success := true, data := some d }

/-- `fetchNseData` after a successful `ENDPOINT_CONFIG` lookup: the
try/catch part of part_000 lines 407-435. -/
def fetchNseDataChecked (symbol : String) (net : NetOutcome) : FetchResult :=
  match jsTryCatch (fetchNseDataTry symbol net)
      (fun m => Except.ok (genericFailure symbol m)) with
  | Except.ok r => r
  | Except.error m => genericFailure symbol m

/-- `fetchNseData` as its caller sees it (part_000 lines 398-436): the
config lookup happens before the try-block, and an unknown endpoint returns
an invalid-endpoint failure object without any network call. -/
def fetchNseDataJS (symbol endpoint : String) (net : NetOutcome) : Except String FetchResult :=
  if endpoint ∉ endpointKeysB then
    Except.ok (genericFailure symbol ("Invalid endpoint: " ++ endpoint))
  else
    jsTryCatch (fetchNseDataTry symbol net)
      (fun m => Except.ok (genericFailure symbol m))

/-- Total form of `fetchNseData`. -/
def fetchNseData (symbol endpoint : String) (net : NetOutcome) : FetchResult :=
  if endpoint ∉ endpointKeysB then
    genericFailure symbol ("Invalid endpoint: " ++ endpoint)
  else
    fetchNseDataChecked symbol net

/-- Fuel-driven worker for `chunksOf`; the fuel is an upper bound on the
list length, so the out-of-fuel branch is never taken by `chunksOf`. -/
def chunksOfGo (W : Nat) : Nat → List α → List (List α)
  | _, [] => []
  | 0, _ :: _ => []
  | fuel + 1, x :: xs => (x :: xs.take (W - 1)) :: chunksOfGo W fuel (xs.drop (W - 1))

/-- JavaScript `symbols.slice(i, i + W)` chunking of the batch loops:
the list of consecutive windows of size at most `W`. -/
def chunksOf (W : Nat) (l : List α) : List (List α) :=
  chunksOfGo W l.length l

/-- `chunk.map(symbol => fetch(symbol))` with a global occurrence index
threaded through so that the network oracle can distinguish the individual
outbound calls. -/
def dispatchList (fetch : Nat → String → FetchResult) : Nat → List String → List FetchResult
  | _, [] => []
  | base, s :: ss => fetch base s :: dispatchList fetch (base + 1) ss

/-- The chunk loop of the enhanced batch variant (part_000 lines 484-495):
every window is dispatched, there is no deadline check. -/
def dispatchWindows (fetch : Nat → String → FetchResult) : Nat → List (List String) → List FetchResult
  | _, [] => []
  | base, c :: cs =>
    dispatchList fetch base c ++ dispatchWindows fetch (base + c.length) cs

/-- The chunk loop of the simple batch variants (part_000 lines 163-205 and
993-1035): before each window the elapsed time is compared with the
deadline `D`; once exceeded, every remaining symbol is pushed as a timeout
failure and the loop breaks. `timeAt k` is the elapsed wall-clock time
observed at the boundary check of window `k`. -/
def dispatchWindowsDeadline (D : Nat) (timeAt : Nat → Nat)
    (fetch : Nat → String → FetchResult) (timeoutMsg : String) :
    Nat → Nat → List (List String) → List FetchResult
  | _, _, [] => []
  | k, base, c :: cs =>
    if D < timeAt k then
      ((c :: cs).flatten).map (fun s => genericFailure s timeoutMsg)
    else
      dispatchList fetch base c ++
        dispatchWindowsDeadline D timeAt fetch timeoutMsg (k + 1) (base + c.length) cs

/-- Timeout message of variant A (part_000 line 175). -/
def timeoutMsgA : String := "Processing timeout - request cancelled to avoid Vercel timeout"

/-- Chunked fetch loop of variant A (part_000 lines 157-205):
window size 8, 45 second global deadline. -/
def runBatchA (symbols : List String) (timeAt : Nat → Nat) (net : Nat → NetOutcome) :
    List FetchResult :=
  dispatchWindowsDeadline 45000 timeAt (fun i s => fetchSingleSymbol s (net i))
    timeoutMsgA 0 0 (chunksOf 8 symbols)

/-- Chunked fetch loop of variant C (part_000 lines 986-1035):
window size 3, 50 second global deadline, message "Processing timeout". -/
def runBatchC (symbols : List String) (timeAt : Nat → Nat) (net : Nat → NetOutcome) :
    List FetchResult :=
  dispatchWindowsDeadline 50000 timeAt (fun i s => fetchSingleSymbolC s (net i))
    ("Processing timeout") 0 0 (chunksOf 3 symbols)

/-- JavaScript object assignment `obj[k] = v` on a string-keyed object
modelled as an association list: an existing key keeps its position and gets
the new value, a new key is appended. -/
def objInsert (m : List (String × β)) (k : String) (v : β) : List (String × β) :=
  if m.any (fun p => p.1 == k) then
    m.map (fun p => if p.1 == k then (k, v) else p)
  else
    m ++ [(k, v)]

/-- Key list of a modelled JavaScript object. -/
def keysOf (m : List (String × β)) : List String :=
  m.map (fun p => p.1)

/-- `results.forEach(r => obj[r.symbol] = f(r))` (equally the `reduce` of
the enhanced variant): later results overwrite earlier ones with equal
symbols. -/
def buildObj (f : FetchResult → β) (acc : List (String × β)) :
    List FetchResult → List (String × β)
  | [] => acc
  | r :: rs => buildObj f (objInsert acc r.symbol (f r)) rs

/-- Entry of the `errors` object: `{error, details}` (plus a timestamp in
the simple variants, not modelled). -/
structure ErrEntry where
  error : Option String
  details : Option String
deriving DecidableEq

/-- Compiled batch payload `{meta: {totalSymbols/symbolsRequested,
successful, failed, ...}, data, errors}`; the duration, timestamp and source
label of `meta` are not modelled. -/
structure BatchResponse where
  totalSymbols : Nat
  successfulCount : Nat
  failedCount : Nat
  data : List (String × Option String)
  errors : List (String × ErrEntry)
deriving DecidableEq

/-- Response compilation shared by all three batch variants
(part_000 lines 213-244, 498-518 and 1042-1075): partition the results by
`success`, count them, key `data` by the symbols of the successful results
and `errors` by the symbols of the failed ones. -/
def compileResponse (symbols : List String) (results : List FetchResult) : BatchResponse :=
  let successful := results.filter (fun r => r.success)
  let failed := results.filter (fun r => !r.success)
  { totalSymbols := symbols.length
    successfulCount := successful.length
    failedCount := failed.length
    data := buildObj (fun r => r.data) [] successful
    errors := buildObj (fun r => ErrEntry.mk r.error r.details) [] failed }

/-- Outcome of a batch handler invocation: the 400 input rejection, a
compiled batch payload with its HTTP status, or a fatal JSON error response
(500/503) from the outer catch. -/
inductive HandlerOutcome where
  | badRequest
  | batch (status : Nat) (resp : BatchResponse)
  | fatal (status : Nat) (message : String)
deriving DecidableEq

/-- HTTP status of a batch handler outcome (the 400 usage payload carries
status 400). -/
def outStatus : HandlerOutcome → Nat
  | HandlerOutcome.badRequest => 400
  | HandlerOutcome.batch st _ => st
  | HandlerOutcome.fatal st _ => st

/-- Batch payload of a handler outcome (empty when the outcome carries no
payload). -/
def outResp : HandlerOutcome → BatchResponse
  | HandlerOutcome.batch _ r => r
  | _ => BatchResponse.mk 0 0 0 [] []

/-- Whether the outcome is a compiled batch payload. -/
def isBatchOutcome : HandlerOutcome → Bool
  | HandlerOutcome.batch _ _ => true
  | _ => false

/-- Session establishment of variant A (part_000 lines 68-93): one
navigation request inside a try whose catch continues with the cookies
accumulated so far (the empty string); a delivered response contributes its
set-cookie header. -/
def sessionA (net : NetOutcome) : String :=
  match net with
  | NetOutcome.fail _ => ""
  | NetOutcome.resp r => r.setCookie

/-- Batch handler of variant A (part_000 lines 4-267) after parameter
extraction: empty symbol list rejected with the 400 usage payload before any
network call; otherwise establish the session (a failure is swallowed), run
the chunked fetch loop, compile, and answer 200 when at least one symbol
succeeded and 207 otherwise.  The `endpoint` parameter is extracted by the
surrounding code but never used.  The session cookies only influence the
upstream, which the `net` oracle models. -/
def handlerA (symbols : List String) (endpoint : String) (sessionNet : NetOutcome)
    (timeAt : Nat → Nat) (net : Nat → NetOutcome) : HandlerOutcome :=
  if symbols.length = 0 then HandlerOutcome.badRequest
  else
    let _cookies := sessionA sessionNet
    let _endpoint := endpoint
    let resp := compileResponse symbols (runBatchA symbols timeAt net)
    HandlerOutcome.batch (if 0 < resp.successfulCount then 200 else 207) resp

/-- The two navigation responses of one session attempt of
`getSessionCookies` (part_000 lines 347-359): main page, then market data
page. -/
structure NavResponses where
  main : NetOutcome
  market : NetOutcome

/-- One cookie fragment of the raw set-cookie concatenation
(part_000 lines 364-372): drop attributes after the first semicolon, trim,
split at the equals signs; skipped when empty or without a name or without
an equals sign. -/
def parseCookiePart (cookie : String) : Option (String × String) :=
  let parts := (((cookie.splitOn (";")).headD ("")).trim)
  match parts.splitOn ("=") with
  | [] => none
  | [_] => none
  | name :: value =>
    if name = "" then none
    else some (name, String.intercalate ("=") value)

/-- Cookie cleaning and de-duplication of `getSessionCookies`
(part_000 lines 361-374): split the raw concatenation at commas, parse each
fragment, merge last-write-wins into an insertion-ordered map and join with
semicolons. -/
def mergeCookiesB (raw : String) : String :=
  let entries := (raw.splitOn (",")).filterMap parseCookiePart
  let m := entries.foldl (fun acc p => objInsert acc p.1 p.2) []
  String.intercalate ("; ") (m.map (fun p => p.1 ++ "=" ++ p.2))

/-- One attempt of `getSessionCookies` (part_000 lines 333-376): fetch the
main page (a rejection or non-2xx status aborts the attempt), fetch the
market data page presenting the main-page cookies (same abort conditions),
then clean and merge the collected set-cookie headers. -/
def sessionAttempt (nav : NavResponses) : Except String String :=
  match nav.main with
  | NetOutcome.fail m => Except.error m
  | NetOutcome.resp r =>
    if r.okStatus = false then
      Except.error ("Main page fetch failed: " ++ toString r.status)
    else
      let mainCookies := r.setCookie
      match nav.market with
      | NetOutcome.fail m => Except.error m
      | NetOutcome.resp r2 =>
        if r2.okStatus = false then
          Except.error ("Market data page fetch failed: " ++ toString r2.status)
        else
          Except.ok (mergeCookiesB (mainCookies ++ ", " ++ r2.setCookie))

/-- `MAX_ATTEMPTS` of `getSessionCookies` (part_000 line 329). -/
def MAX_ATTEMPTS : Nat := 3

/-- Attempt loop of `getSessionCookies` (part_000 lines 332-388),
instrumented with the number of attempts performed and the list of backoff
delays (in milliseconds) slept between attempts.  `navs a` gives the
navigation responses observed by attempt `a` (1-based).  A successful
attempt returns its cookie string at once; a failed attempt records the
error, sleeps 2000 ms when it was not the last one, and retries; after the
last attempt the recorded error is surfaced. -/
def sessionRunAux (navs : Nat → NavResponses) :
    Nat → Nat → String → Except String String × Nat × List Nat
  | 0, _, lastErr =>
    (Except.error ("Failed to establish NSE session after " ++ toString MAX_ATTEMPTS
      ++ " attempts. Last error: " ++ lastErr), 0, [])
  | remaining + 1, attempt, _ =>
    match sessionAttempt (navs attempt) with
    | Except.ok c => (Except.ok c, 1, [])
    | Except.error e =>
      if attempt < MAX_ATTEMPTS then
        let rest := sessionRunAux navs remaining (attempt + 1) e
        (rest.1, rest.2.1 + 1, 2000 :: rest.2.2)
      else
        let rest := sessionRunAux navs remaining (attempt + 1) e
        (rest.1, rest.2.1 + 1, rest.2.2)

/-- `getSessionCookies` run: result, attempts performed, backoff delays. -/
def sessionRun (navs : Nat → NavResponses) : Except String String × Nat × List Nat :=
  sessionRunAux navs MAX_ATTEMPTS 1 ""

/-- `getSessionCookies` (part_000 lines 327-389) as its caller sees it:
either the merged cookie string of the first successful attempt or the
thrown session error. -/
def getSessionCookies (navs : Nat → NavResponses) : Except String String :=
  (sessionRun navs).1

/-- Batch handler of the enhanced variant (part_000 lines 440-537) after
parameter extraction: an empty symbol list or an endpoint outside
`ENDPOINT_CONFIG` is rejected with the 400 usage payload before any network
call; a session failure is caught by the outer catch and answered as a
fatal 503; otherwise the symbols are fetched in windows of 4 without a
deadline, compiled, and answered 200 when nothing failed, 207 on a mix and
502 when nothing succeeded. -/
def handlerB (symbols : List String) (endpoint : String) (navs : Nat → NavResponses)
    (net : Nat → NetOutcome) : HandlerOutcome :=
  if symbols.length = 0 ∨ endpoint ∉ endpointKeysB then
    HandlerOutcome.badRequest
  else
    match getSessionCookies navs with
    | Except.error e => HandlerOutcome.fatal 503 e
    | Except.ok _ =>
      let results := dispatchWindows (fun i s => fetchNseData s endpoint (net i)) 0
        (chunksOf 4 symbols)
      let resp := compileResponse symbols results
      HandlerOutcome.batch
        (if resp.failedCount = 0 then 200
         else if 0 < resp.successfulCount then 207 else 502) resp

/-- Endpoint keys of the single-symbol proxy handlers
(nse-proxy.js lines 32-37 and 297-302). -/
def nseEndpointKeys : List String := ["quote", "indices", "preopen", "marketstatus"]

/-- Outcome of a single-symbol proxy invocation. -/
inductive ProxyOutcome where
  | badRequestSymbol
  | badRequestEndpoint
  | sessionFailure (details : String)
  | upstreamError (status : Nat) (error : String) (details : String)
  | caughtError (message : String)
  | jsonPayload (payload : String)
deriving DecidableEq

/-- HTTP status of a single-symbol proxy outcome, as set by the
corresponding `res.status(...)` call. -/
def proxyStatus : ProxyOutcome → Nat
  | ProxyOutcome.badRequestSymbol => 400
  | ProxyOutcome.badRequestEndpoint => 400
  | ProxyOutcome.sessionFailure _ => 500
  | ProxyOutcome.upstreamError st _ _ => st
  | ProxyOutcome.caughtError _ => 500
  | ProxyOutcome.jsonPayload _ => 200

/-- The 401 detail message of nse-proxy.js variant A (line 98). -/
def detail401A : String :=
  "NSE API requires session cookies. Session establishment may have failed."

/-- Single-symbol proxy handler of nse-proxy.js variant A (lines 4-143)
after parameter extraction: missing symbol and unknown endpoint are rejected
with 400; a failed `getSessionFromNSE` answers 500; a rejected fetch or a
rejected `response.json()` falls into the outer catch (500); a non-2xx
upstream response is propagated with its own status code and, for 401, a
session-cookie detail message; a parseable 2xx response is enriched and
answered 200. -/
def nseProxyHandler (symbol : Option String) (endpoint : String)
    (session : Except String String) (net : NetOutcome) : ProxyOutcome :=
  match symbol with
  | none => ProxyOutcome.badRequestSymbol
  | some _ =>
    if endpoint ∉ nseEndpointKeys then ProxyOutcome.badRequestEndpoint
    else
      match session with
      | Except.error e => ProxyOutcome.sessionFailure e
      | Except.ok _ =>
        match net with
        | NetOutcome.fail m => ProxyOutcome.caughtError m
        | NetOutcome.resp r =>
          if r.okStatus = false then
            ProxyOutcome.upstreamError r.status
              ("NSE API Error: " ++ toString r.status ++ " " ++ r.statusText)
              (if r.status = 401 then detail401A else r.bodyText.take 200)
          else
            match r.bodyJson with
            | Except.error m => ProxyOutcome.caughtError m
            | Except.ok d => ProxyOutcome.jsonPayload d

/-- The 401 detail message of nse-proxy.js variant B (line 340). -/
def detail401B : String :=
  "NSE API requires session cookies. Server-side requests may need additional authentication."

/-- Single-symbol proxy handler of nse-proxy.js variant B (lines 269-377):
as variant A but without the session step. -/
def nseProxyHandlerB (symbol : Option String) (endpoint : String)
    (net : NetOutcome) : ProxyOutcome :=
  match symbol with
  | none => ProxyOutcome.badRequestSymbol
  | some _ =>
    if endpoint ∉ nseEndpointKeys then ProxyOutcome.badRequestEndpoint
    else
      match net with
      | NetOutcome.fail m => ProxyOutcome.caughtError m
      | NetOutcome.resp r =>
        if r.okStatus = false then
          ProxyOutcome.upstreamError r.status
            ("NSE API Error: " ++ toString r.status ++ " " ++ r.statusText)
            (if r.status = 401 then detail401B else r.bodyText.take 200)
        else
          match r.bodyJson with
          | Except.error m => ProxyOutcome.caughtError m
          | Except.ok d => ProxyOutcome.jsonPayload d

/-- Concrete fixture: a parseable 2xx response with the given payload. -/
def okResp (payload : String) : HttpResponse :=
  { status := 200, statusText := "OK", bodyText := "", bodyJson := Except.ok payload,
    setCookie := "", contentType := "application/json" }

/-- Concrete fixture: a non-2xx response with the given status. -/
def errResp (st : Nat) : HttpResponse :=
  { status := st, statusText := "Error", bodyText := "denied",
    bodyJson := Except.error "parse", setCookie := "", contentType := "text/html" }

/-- Concrete fixture: occurrence 0 succeeds, all later occurrences are
rejected upstream with 401. -/
def netMixed : Nat → NetOutcome :=
  fun i => if i = 0 then NetOutcome.resp (okResp "p0") else NetOutcome.resp (errResp 401)

/-- Concrete fixture: every occurrence succeeds, with a payload naming the
occurrence index. -/
def netAllOk : Nat → NetOutcome :=
  fun i => NetOutcome.resp (okResp ("payload" ++ toString i))

/-- Concrete fixture: the clock never advances. -/
def timeZero : Nat → Nat := fun _ => 0

/-- Concrete fixture: a delivered session navigation response. -/
def sessOK : NetOutcome := NetOutcome.resp (okResp "")

/-- Concrete fixture: every session navigation request is rejected. -/
def navsAllFail : Nat → NavResponses :=
  fun _ => { main := NetOutcome.fail "boom", market := NetOutcome.fail "boom" }

/-- Concrete fixture: every session navigation request is delivered. -/
def navsAllOk : Nat → NavResponses :=
  fun _ => { main := sessOK, market := sessOK }

/-- Concrete fixture: every upstream call is rejected with 401. -/
def netAll401 : Nat → NetOutcome :=
  fun _ => NetOutcome.resp (errResp 401)

/-! ### Helper lemmas -/

/-- Every branch of `fetchSingleSymbol` reports the requested symbol. -/
theorem fetchSingleSymbol_symbol (s : String) (net : NetOutcome) :
    (fetchSingleSymbol s net).symbol = s := by
  unfold fetchSingleSymbol fetchSingleSymbolJS jsTryCatch fetchSingleSymbolTry genericFailure
  cases net with
  | fail m => rfl
  | resp r =>
    by_cases h : r.okStatus = false
    · simp [h]
    · simp only [h, if_neg]
      cases r.bodyJson with
      | error m => simp [h]
      | ok d => simp [h]

/-- Every branch of variant C `fetchSingleSymbol` reports the requested
symbol. -/
theorem fetchSingleSymbolC_symbol (s : String) (net : NetOutcome) :
    (fetchSingleSymbolC s net).symbol = s := by
  unfold fetchSingleSymbolC jsTryCatch fetchSingleSymbolCTry genericFailure
  cases net with
  | fail m => rfl
  | resp r =>
    by_cases h : r.okStatus = false
    · simp [h]
    · simp only [h, if_neg]
      cases r.bodyJson with
      | error m => simp [h]
      | ok d => simp [h]

/-- Every branch of `fetchNseData` reports the requested symbol. -/
theorem fetchNseData_symbol (s endpoint : String) (net : NetOutcome) :
    (fetchNseData s endpoint net).symbol = s := by
  unfold fetchNseData fetchNseDataChecked jsTryCatch fetchNseDataTry genericFailure
  by_cases he : endpoint ∉ endpointKeysB
  · simp [he]
  · simp only [he, if_false]
    cases net with
    | fail m => rfl
    | resp r =>
      by_cases h : r.okStatus = false
      · simp [h]
      · simp only [h, if_neg]
        cases r.bodyJson with
        | error m => simp [h]
        | ok d => simp [h]

/-- Symbols of a dispatched window, in order. -/
theorem dispatchList_map_symbol (fetch : Nat → String → FetchResult)
    (hf : ∀ i s, (fetch i s).symbol = s) :
    ∀ (base : Nat) (ss : List String),
      (dispatchList fetch base ss).map (fun r => r.symbol) = ss := by
  intro base ss
  induction ss generalizing base with
  | nil => rfl
  | cons s ss ih => simp [dispatchList, hf, ih]

/-- Symbols of the deadline-free window loop, in order. -/
theorem dispatchWindows_map_symbol (fetch : Nat → String → FetchResult)
    (hf : ∀ i s, (fetch i s).symbol = s) :
    ∀ (cs : List (List String)) (base : Nat),
      (dispatchWindows fetch base cs).map (fun r => r.symbol) = cs.flatten := by
  intro cs
  induction cs with
  | nil => intro base; rfl
  | cons c cs ih =>
    intro base
    simp [dispatchWindows, List.map_append, dispatchList_map_symbol fetch hf, ih]

/-- Symbols of the deadline-checked window loop, in order: the timeout
entries cover exactly the remaining symbols. -/
theorem dispatchWindowsDeadline_map_symbol (D : Nat) (timeAt : Nat → Nat)
    (fetch : Nat → String → FetchResult) (msg : String)
    (hf : ∀ i s, (fetch i s).symbol = s) :
    ∀ (cs : List (List String)) (k base : Nat),
      (dispatchWindowsDeadline D timeAt fetch msg k base cs).map (fun r => r.symbol) =
        cs.flatten := by
  intro cs
  induction cs with
  | nil => intro k base; rfl
  | cons c cs ih =>
    intro k base
    by_cases h : D < timeAt k
    · have hcomp : ((fun r => r.symbol) ∘ fun s => genericFailure s msg) = fun s => s := rfl
      simp only [dispatchWindowsDeadline, h, if_true, List.map_map, hcomp]
      simp
    · simp [dispatchWindowsDeadline, h, List.map_append,
        dispatchList_map_symbol fetch hf, ih]

/-- The fuel-driven chunking flattens back to the original list whenever the
fuel dominates the length. -/
theorem chunksOfGo_flatten (W : Nat) :
    ∀ (fuel : Nat) (l : List α), l.length ≤ fuel → (chunksOfGo W fuel l).flatten = l := by
  intro fuel
  induction fuel with
  | zero =>
    intro l h
    cases l with
    | nil => rfl
    | cons x xs => simp at h
  | succ n ih =>
    intro l h
    cases l with
    | nil => rfl
    | cons x xs =>
      simp only [List.length_cons] at h
      simp only [chunksOfGo, List.flatten_cons]
      rw [ih (xs.drop (W - 1)) (by simp only [List.length_drop]; omega)]
      simp [List.take_append_drop]

/-- `chunksOf` partitions the list: its flattening is the original list. -/
theorem chunksOf_flatten (W : Nat) (l : List α) : (chunksOf W l).flatten = l :=
  chunksOfGo_flatten W l.length l (Nat.le_refl _)

/-- The symbol column of variant A results is the request list itself. -/
theorem runBatchA_map_symbol (symbols : List String) (timeAt : Nat → Nat)
    (net : Nat → NetOutcome) :
    (runBatchA symbols timeAt net).map (fun r => r.symbol) = symbols := by
  unfold runBatchA
  rw [dispatchWindowsDeadline_map_symbol _ _ _ _ (fun i s => fetchSingleSymbol_symbol s (net i))]
  exact chunksOf_flatten 8 symbols

/-- The symbol column of variant C results is the request list itself. -/
theorem runBatchC_map_symbol (symbols : List String) (timeAt : Nat → Nat)
    (net : Nat → NetOutcome) :
    (runBatchC symbols timeAt net).map (fun r => r.symbol) = symbols := by
  unfold runBatchC
  rw [dispatchWindowsDeadline_map_symbol _ _ _ _ (fun i s => fetchSingleSymbolC_symbol s (net i))]
  exact chunksOf_flatten 3 symbols

/-- The symbol column of enhanced-variant results is the request list. -/
theorem runBatchB_map_symbol (symbols : List String) (endpoint : String)
    (net : Nat → NetOutcome) :
    (dispatchWindows (fun i s => fetchNseData s endpoint (net i)) 0
      (chunksOf 4 symbols)).map (fun r => r.symbol) = symbols := by
  rw [dispatchWindows_map_symbol _ (fun i s => fetchNseData_symbol s endpoint (net i))]
  exact chunksOf_flatten 4 symbols

/-- A filter by `success` and a filter by its negation partition the length
of a result list. -/
theorem length_filter_partition (l : List FetchResult) :
    (l.filter (fun r => r.success)).length + (l.filter (fun r => !r.success)).length =
      l.length := by
  induction l with
  | nil => rfl
  | cons r t ih =>
    by_cases h : r.success = true
    · simp [List.filter_cons, h]; omega
    · simp only [Bool.not_eq_true] at h
      simp [List.filter_cons, h]; omega

/-- Updating an existing key leaves the key list unchanged. -/
theorem keysOf_objInsert_pos (m : List (String × β)) (k : String) (v : β)
    (h : m.any (fun p => p.1 == k) = true) :
    keysOf (objInsert m k v) = keysOf m := by
  unfold objInsert keysOf
  rw [if_pos h, List.map_map]
  apply List.map_congr_left
  intro p _
  by_cases hpk : p.1 == k
  · have : p.1 = k := by simpa using hpk
    simp [Function.comp, hpk, this]
  · simp [Function.comp, hpk]

/-- Inserting a fresh key appends it to the key list. -/
theorem keysOf_objInsert_neg (m : List (String × β)) (k : String) (v : β)
    (h : m.any (fun p => p.1 == k) = false) :
    keysOf (objInsert m k v) = keysOf m ++ [k] := by
  unfold objInsert keysOf
  rw [if_neg (by simp [h]), List.map_append]
  rfl

/-- A key found by the `any` probe is in the key list. -/
theorem mem_keysOf_of_any (m : List (String × β)) (k : String)
    (h : m.any (fun p => p.1 == k) = true) : k ∈ keysOf m := by
  rcases List.any_eq_true.mp h with ⟨p, hp, hpk⟩
  exact List.mem_map.mpr ⟨p, hp, by simpa using hpk⟩

/-- A key rejected by the `any` probe is not in the key list. -/
theorem not_mem_keysOf_of_any (m : List (String × β)) (k : String)
    (h : m.any (fun p => p.1 == k) = false) : k ∉ keysOf m := by
  intro hk
  rcases List.mem_map.mp hk with ⟨p, hp, hpk⟩
  have : m.any (fun p => p.1 == k) = true :=
    List.any_eq_true.mpr ⟨p, hp, by simpa using hpk⟩
  rw [this] at h
  exact Bool.true_eq_false.mp h

/-- Membership in the key list after an insertion. -/
theorem mem_keysOf_objInsert (m : List (String × β)) (k : String) (v : β) (x : String) :
    x ∈ keysOf (objInsert m k v) ↔ x ∈ keysOf m ∨ x = k := by
  cases h : m.any (fun p => p.1 == k) with
  | true =>
    rw [keysOf_objInsert_pos m k v h]
    have hk := mem_keysOf_of_any m k h
    constructor
    · exact fun hx => Or.inl hx
    · rintro (hx | rfl)
      · exact hx
      · exact hk
  | false =>
    rw [keysOf_objInsert_neg m k v h]
    simp [List.mem_append]

/-- Insertion preserves distinctness of the key list. -/
theorem nodup_keysOf_objInsert (m : List (String × β)) (k : String) (v : β)
    (h : (keysOf m).Nodup) : (keysOf (objInsert m k v)).Nodup := by
  cases ha : m.any (fun p => p.1 == k) with
  | true => rw [keysOf_objInsert_pos m k v ha]; exact h
  | false =>
    rw [keysOf_objInsert_neg m k v ha]
    simp only [List.nodup_append, List.nodup_cons, List.nodup_nil]
    exact ⟨h, by simp, by simpa using not_mem_keysOf_of_any m k ha⟩

/-- Membership in the key list of a built object: the accumulated keys plus
the symbols of the processed results. -/
theorem mem_keysOf_buildObj (f : FetchResult → β) :
    ∀ (rs : List FetchResult) (acc : List (String × β)) (x : String),
      x ∈ keysOf (buildObj f acc rs) ↔ x ∈ keysOf acc ∨ ∃ r ∈ rs, r.symbol = x := by
  intro rs
  induction rs with
  | nil => intro acc x; simp [buildObj]
  | cons r rs ih =>
    intro acc x
    simp only [buildObj]
    rw [ih]
    rw [mem_keysOf_objInsert]
    simp only [List.mem_cons]
    constructor
    · rintro ((hx | rfl) | ⟨q, hq, hqx⟩)
      · exact Or.inl hx
      · exact Or.inr ⟨r, Or.inl rfl, rfl⟩
      · exact Or.inr ⟨q, Or.inr hq, hqx⟩
    · rintro (hx | ⟨q, (rfl | hq), hqx⟩)
      · exact Or.inl (Or.inl hx)
      · exact Or.inl (Or.inr hqx.symm)
      · exact Or.inr ⟨q, hq, hqx⟩

/-- Building an object preserves distinctness of the key list. -/
theorem nodup_keysOf_buildObj (f : FetchResult → β) :
    ∀ (rs : List FetchResult) (acc : List (String × β)),
      (keysOf acc).Nodup → (keysOf (buildObj f acc rs)).Nodup := by
  intro rs
  induction rs with
  | nil => intro acc h; exact h
  | cons r rs ih =>
    intro acc h
    exact ih _ (nodup_keysOf_objInsert acc r.symbol (f r) h)

/-- Membership in the data keys of a compiled response: some successful
result reported the symbol. -/
theorem mem_keys_data (symbols : List String) (results : List FetchResult) (x : String) :
    x ∈ keysOf (compileResponse symbols results).data ↔
      ∃ r ∈ results, r.success = true ∧ r.symbol = x := by
  show x ∈ keysOf (buildObj (fun r => r.data) [] (results.filter (fun r => r.success))) ↔ _
  rw [mem_keysOf_buildObj]
  simp [keysOf, List.mem_filter, and_assoc]

/-- Membership in the error keys of a compiled response: some failed result
reported the symbol. -/
theorem mem_keys_errors (symbols : List String) (results : List FetchResult) (x : String) :
    x ∈ keysOf (compileResponse symbols results).errors ↔
      ∃ r ∈ results, r.success = false ∧ r.symbol = x := by
  show x ∈ keysOf (buildObj (fun r => ErrEntry.mk r.error r.details) []
    (results.filter (fun r => !r.success))) ↔ _
  rw [mem_keysOf_buildObj]
  simp [keysOf, List.mem_filter, and_assoc]

/-- Coverage: the data keys and error keys of a compiled response together
are exactly the requested symbols. -/
theorem coverage_compile (symbols : List String) (results : List FetchResult)
    (hsym : results.map (fun r => r.symbol) = symbols) (x : String) :
    (x ∈ keysOf (compileResponse symbols results).data ∨
     x ∈ keysOf (compileResponse symbols results).errors) ↔ x ∈ symbols := by
  rw [mem_keys_data, mem_keys_errors, ← hsym, List.mem_map]
  constructor
  · rintro (⟨r, hr, _, hx⟩ | ⟨r, hr, _, hx⟩) <;> exact ⟨r, hr, hx⟩
  · rintro ⟨r, hr, hx⟩
    cases hs : r.success with
    | true => exact Or.inl ⟨r, hr, hs, hx⟩
    | false => exact Or.inr ⟨r, hr, hs, hx⟩

/-- Exclusivity: with distinct requested symbols, no symbol is both a data
key and an error key of the compiled response. -/
theorem disjoint_compile (symbols : List String) (results : List FetchResult)
    (hsym : results.map (fun r => r.symbol) = symbols) (hnd : symbols.Nodup) (x : String)
    (hd : x ∈ keysOf (compileResponse symbols results).data) :
    x ∉ keysOf (compileResponse symbols results).errors := by
  intro he
  rcases (mem_keys_data symbols results x).mp hd with ⟨r1, hr1, hs1, hx1⟩
  rcases (mem_keys_errors symbols results x).mp he with ⟨r2, hr2, hs2, hx2⟩
  have hmapnd : (results.map (fun r => r.symbol)).Nodup := by rw [hsym]; exact hnd
  have : r1 = r2 := List.inj_on_of_nodup_map hmapnd hr1 hr2 (by rw [hx1, hx2])
  rw [this, hs2] at hs1
  exact Bool.false_ne_true hs1

/-- Complete characterisation of the deadline-checked window loop: some
window count `n` exists such that the first `n` windows were dispatched, the
boundary check passed for each of them, the check failed at window `n` when
any window remained, and the remaining symbols were all pushed as timeout
failures. -/
theorem dispatchWindowsDeadline_spec (D : Nat) (timeAt : Nat → Nat)
    (fetch : Nat → String → FetchResult) (msg : String) :
    ∀ (cs : List (List String)) (k base : Nat), ∃ n, n ≤ cs.length ∧
      (∀ m, m < n → timeAt (k + m) ≤ D) ∧
      (n < cs.length → D < timeAt (k + n)) ∧
      dispatchWindowsDeadline D timeAt fetch msg k base cs =
        dispatchWindows fetch base (cs.take n) ++
          ((cs.drop n).flatten).map (fun s => genericFailure s msg) := by
  intro cs
  induction cs with
  | nil =>
    intro k base
    exact ⟨0, by simp [dispatchWindowsDeadline, dispatchWindows]⟩
  | cons c cs ih =>
    intro k base
    by_cases h : D < timeAt k
    · refine ⟨0, by simp, ?_, ?_, ?_⟩
      · intro m hm; exact absurd hm (Nat.not_lt_zero m)
      · intro _; simpa using h
      · simp [dispatchWindowsDeadline, h, dispatchWindows]
    · obtain ⟨n, hn, hwin, hstop, heq⟩ := ih (k + 1) (base + c.length)
      refine ⟨n + 1, by simpa using hn, ?_, ?_, ?_⟩
      · intro m hm
        cases m with
        | zero => simpa using Nat.le_of_not_lt h
        | succ m' =>
          have hidx : k + (m' + 1) = (k + 1) + m' := by omega
          rw [hidx]
          exact hwin m' (by omega)
      · intro hlt
        have hidx : k + (n + 1) = (k + 1) + n := by omega
        rw [hidx]
        exact hstop (by simpa using hlt)
      · simp only [dispatchWindowsDeadline, h, if_false, heq, List.take_succ_cons,
          List.drop_succ_cons, dispatchWindows, List.append_assoc]

/-- The catch-all wrapper of `fetchSingleSymbol` always returns a value. -/
theorem fetchSingleSymbolJS_eq (symbol : String) (net : NetOutcome) :
    fetchSingleSymbolJS symbol net = Except.ok (fetchSingleSymbol symbol net) := by
  unfold fetchSingleSymbol fetchSingleSymbolJS jsTryCatch fetchSingleSymbolTry
  cases net with
  | fail m => rfl
  | resp r =>
    by_cases h : r.okStatus = false
    · simp [h]
    · simp only [h, if_neg]
      cases r.bodyJson with
      | error m => simp [h]
      | ok d => simp [h]

/-- The catch-all wrapper of `fetchNseData` always returns a value. -/
theorem fetchNseDataJS_eq (symbol endpoint : String) (net : NetOutcome) :
    fetchNseDataJS symbol endpoint net = Except.ok (fetchNseData symbol endpoint net) := by
  unfold fetchNseData fetchNseDataJS fetchNseDataChecked jsTryCatch fetchNseDataTry
  by_cases he : endpoint ∉ endpointKeysB
  · simp [he]
  · simp only [he, if_false]
    cases net with
    | fail m => rfl
    | resp r =>
      by_cases h : r.okStatus = false
      · simp [h]
      · simp only [h, if_neg]
        cases r.bodyJson with
        | error m => simp [h]
        | ok d => simp [h]

/-! ### Claim theorems -/

/-- C4: the session establisher retries the whole navigation sequence up to
exactly MAX_ATTEMPTS (3) times with a fixed 2000 ms backoff delay between
attempts; if every attempt fails it surfaces a SessionError carrying the
last observed error, and a successful attempt returns its accumulated
cookie string immediately without performing further attempts. -/
theorem session_retry_policy (navs : Nat → NavResponses) :
    (∀ c, sessionAttempt (navs 1) = Except.ok c →
      sessionRun navs = (Except.ok c, 1, []) ∧ getSessionCookies navs = Except.ok c) ∧
    (∀ e1 c, sessionAttempt (navs 1) = Except.error e1 →
      sessionAttempt (navs 2) = Except.ok c →
      sessionRun navs = (Except.ok c, 2, [2000])) ∧
    (∀ e1 e2 c, sessionAttempt (navs 1) = Except.error e1 →
      sessionAttempt (navs 2) = Except.error e2 →
      sessionAttempt (navs 3) = Except.ok c →
      sessionRun navs = (Except.ok c, 3, [2000, 2000])) ∧
    (∀ e1 e2 e3, sessionAttempt (navs 1) = Except.error e1 →
      sessionAttempt (navs 2) = Except.error e2 →
      sessionAttempt (navs 3) = Except.error e3 →
      getSessionCookies navs =
        Except.error ("Failed to establish NSE session after 3 attempts. Last error: " ++ e3) ∧
      sessionRun navs =
        (Except.error ("Failed to establish NSE session after 3 attempts. Last error: " ++ e3),
          3, [2000, 2000])) := by
  refine ⟨?_, ?_, ?_, ?_⟩
  · intro c h1
    constructor <;> simp [sessionRun, getSessionCookies, sessionRunAux, h1]
  · intro e1 c h1 h2
    simp [sessionRun, sessionRunAux, h1, h2, MAX_ATTEMPTS]
  · intro e1 e2 c h1 h2 h3
    simp [sessionRun, sessionRunAux, h1, h2, h3, MAX_ATTEMPTS]
  · intro e1 e2 e3 h1 h2 h3
    constructor <;>
      (simp [sessionRun, getSessionCookies, sessionRunAux, h1, h2, h3, MAX_ATTEMPTS]
       try rfl)

/-- C4 witness: with every navigation request rejected, the three attempts
are exhausted, two 2000 ms delays are slept, and the surfaced SessionError
carries the last observed error. -/
theorem session_retry_policy_witness :
    getSessionCookies navsAllFail =
      Except.error ("Failed to establish NSE session after 3 attempts. Last error: boom") ∧
    sessionRun navsAllFail =
      (Except.error ("Failed to establish NSE session after 3 attempts. Last error: boom"),
        3, [2000, 2000]) :=
  (session_retry_policy navsAllFail).2.2.2 "boom" "boom" "boom" rfl rfl rfl

/-- C6: the single-item fetchers never throw past their boundary: the
wrapped computations always deliver a result object carrying the requested
symbol, and every error path (network rejection or timeout, non-2xx status,
JSON parse failure) is captured as a result with success set to false,
while only a parseable 2xx response yields success. -/
theorem fetcher_total_boundary (symbol endpoint : String) (net : NetOutcome) :
    (fetchSingleSymbolJS symbol net = Except.ok (fetchSingleSymbol symbol net) ∧
      (fetchSingleSymbol symbol net).symbol = symbol) ∧
    (fetchNseDataJS symbol endpoint net = Except.ok (fetchNseData symbol endpoint net) ∧
      (fetchNseData symbol endpoint net).symbol = symbol) ∧
    (∀ m, net = NetOutcome.fail m →
      fetchSingleSymbol symbol net = genericFailure symbol m ∧
      fetchNseDataChecked symbol net = genericFailure symbol m) ∧
    (∀ r, net = NetOutcome.resp r → r.okStatus = false →
      (fetchSingleSymbol symbol net).success = false ∧
      (fetchNseDataChecked symbol net).success = false) ∧
    (∀ r m, net = NetOutcome.resp r → r.okStatus = true → r.bodyJson = Except.error m →
      fetchSingleSymbol symbol net = genericFailure symbol m ∧
      fetchNseDataChecked symbol net = genericFailure symbol m) ∧
    (∀ r d, net = NetOutcome.resp r → r.okStatus = true → r.bodyJson = Except.ok d →
      fetchSingleSymbol symbol net =
        { symbol := symbol, success := true, data := some d }) := by
  refine ⟨⟨fetchSingleSymbolJS_eq symbol net, fetchSingleSymbol_symbol symbol net⟩,
    ⟨fetchNseDataJS_eq symbol endpoint net, fetchNseData_symbol symbol endpoint net⟩,
    ?_, ?_, ?_, ?_⟩
  · rintro m rfl
    constructor <;> rfl
  · rintro r rfl h
    constructor <;>
      simp [fetchSingleSymbol, fetchSingleSymbolJS, fetchNseDataChecked, jsTryCatch,
        fetchSingleSymbolTry, fetchNseDataTry, h]
  · rintro r m rfl hok hjson
    constructor <;>
      simp [fetchSingleSymbol, fetchSingleSymbolJS, fetchNseDataChecked, jsTryCatch,
        fetchSingleSymbolTry, fetchNseDataTry, hok, hjson]
  · rintro r d rfl hok hjson
    simp [fetchSingleSymbol, fetchSingleSymbolJS, jsTryCatch, fetchSingleSymbolTry,
      hok, hjson]

/-- C6 witness: a rejected fetch for a concrete symbol is captured as a
failure object rather than escaping as an exception. -/
theorem fetcher_total_boundary_witness :
    fetchSingleSymbol "RELIANCE" (NetOutcome.fail "socket reset") =
      genericFailure "RELIANCE" "socket reset" ∧
    fetchNseDataChecked "RELIANCE" (NetOutcome.fail "socket reset") =
      genericFailure "RELIANCE" "socket reset" :=
  (fetcher_total_boundary "RELIANCE" "quote" (NetOutcome.fail "socket reset")).2.2.1
    "socket reset" rfl

/-- C7 (amended): a non-2xx upstream response yields a failure whose error
string records the HTTP status code; in the single-symbol session proxy a
401 additionally carries the human-readable session-cookie detail; a 2xx
response with an unparseable body yields a failure whose error is just the
parse error message, identical to a network-error failure (no distinct
MalformedResponse kind). -/
theorem outcome_classification (symbol endpoint : String) (r : HttpResponse) (m ck : String) :
    (r.okStatus = false →
      fetchSingleSymbol symbol (NetOutcome.resp r) =
        { symbol := symbol, success := false,
          error := some ("HTTP " ++ toString r.status ++ ": " ++ r.statusText),
          details := some (r.bodyText.take 200) }) ∧
    (endpoint ∈ nseEndpointKeys → r.okStatus = false → r.status = 401 →
      nseProxyHandler (some symbol) endpoint (Except.ok ck) (NetOutcome.resp r) =
        ProxyOutcome.upstreamError 401
          ("NSE API Error: " ++ toString r.status ++ " " ++ r.statusText) detail401A) ∧
    (r.okStatus = true → r.bodyJson = Except.error m →
      fetchSingleSymbol symbol (NetOutcome.resp r) =
        fetchSingleSymbol symbol (NetOutcome.fail m) ∧
      fetchSingleSymbol symbol (NetOutcome.resp r) = genericFailure symbol m) := by
  refine ⟨?_, ?_, ?_⟩
  · intro h
    simp [fetchSingleSymbol, fetchSingleSymbolJS, jsTryCatch, fetchSingleSymbolTry, h]
  · intro he h h401
    simp [nseProxyHandler, he, h, h401]
  · intro hok hjson
    constructor <;>
      simp [fetchSingleSymbol, fetchSingleSymbolJS, jsTryCatch, fetchSingleSymbolTry,
        genericFailure, hok, hjson]

/-- C7 witness: a concrete 401 response produces a failure recording the
status code, and a concrete 401 through the session proxy carries the
session-cookie detail. -/
theorem outcome_classification_witness :
    fetchSingleSymbol "TCS" (NetOutcome.resp (errResp 401)) =
      { symbol := "TCS", success := false,
        error := some ("HTTP " ++ toString (errResp 401).status ++ ": " ++ (errResp 401).statusText),
        details := some ((errResp 401).bodyText.take 200) } ∧
    nseProxyHandler (some "TCS") "quote" (Except.ok "ck") (NetOutcome.resp (errResp 401)) =
      ProxyOutcome.upstreamError 401
        ("NSE API Error: " ++ toString (errResp 401).status ++ " " ++ (errResp 401).statusText)
        detail401A :=
  ⟨(outcome_classification "TCS" "quote" (errResp 401) "m" "ck").1 (by decide),
   (outcome_classification "TCS" "quote" (errResp 401) "m" "ck").2.1 (by decide) (by decide) rfl⟩

/-- C7 counterexample: a 2xx response whose body fails to parse produces a
result indistinguishable from a plain network failure with the same message
and carrying only that generic message, so no distinct MalformedResponse
error kind exists. -/
theorem malformed_json_not_distinct :
    fetchSingleSymbol "TCS"
      (NetOutcome.resp
        { status := 200, statusText := "OK", bodyText := "<html>",
          bodyJson := Except.error "Unexpected token", setCookie := "",
          contentType := "text/html" }) =
      fetchSingleSymbol "TCS" (NetOutcome.fail "Unexpected token") ∧
    fetchSingleSymbol "TCS" (NetOutcome.fail "Unexpected token") =
      genericFailure "TCS" "Unexpected token" :=
  ⟨rfl, rfl⟩

/-- C10: the single-symbol proxy handlers propagate a non-2xx upstream
status code verbatim as their own response status instead of mapping it to
a fixed gateway code. -/
theorem proxy_status_passthrough (sym endpoint ck : String) (r : HttpResponse)
    (hep : endpoint ∈ nseEndpointKeys) (hok : r.okStatus = false) :
    proxyStatus (nseProxyHandler (some sym) endpoint (Except.ok ck) (NetOutcome.resp r)) =
      r.status ∧
    proxyStatus (nseProxyHandlerB (some sym) endpoint (NetOutcome.resp r)) = r.status := by
  constructor <;> simp [nseProxyHandler, nseProxyHandlerB, proxyStatus, hep, hok]

/-- C10 witness: a concrete upstream 401 is answered with proxy status 401
by both single-symbol handlers. -/
theorem proxy_status_passthrough_witness :
    proxyStatus (nseProxyHandler (some "RELIANCE") "quote" (Except.ok "ck")
      (NetOutcome.resp (errResp 401))) = 401 ∧
    proxyStatus (nseProxyHandlerB (some "RELIANCE") "quote"
      (NetOutcome.resp (errResp 401))) = 401 :=
  proxy_status_passthrough "RELIANCE" "quote" "ck" (errResp 401) (by decide) (by decide)

/-- C5: in each deadline-checked batch run (variants A and C), the elapsed
time is compared with the deadline at each window boundary; some window
count `n` exists such that every dispatched window passed the check, the
check failed at the first undispatched window when one remained, and every
remaining symbol received exactly one ProcessingTimeout failure; moreover
every requested occurrence has exactly one outcome. -/
theorem deadline_windowing (symbols : List String) (timeAt : Nat → Nat)
    (net : Nat → NetOutcome) :
    (∃ n,
      (∀ m, m < n → timeAt m ≤ 45000) ∧
      (n < (chunksOf 8 symbols).length → 45000 < timeAt n) ∧
      runBatchA symbols timeAt net =
        dispatchWindows (fun i s => fetchSingleSymbol s (net i)) 0
            ((chunksOf 8 symbols).take n) ++
          (((chunksOf 8 symbols).drop n).flatten).map
            (fun s => genericFailure s timeoutMsgA)) ∧
    (∃ n,
      (∀ m, m < n → timeAt m ≤ 50000) ∧
      (n < (chunksOf 3 symbols).length → 50000 < timeAt n) ∧
      runBatchC symbols timeAt net =
        dispatchWindows (fun i s => fetchSingleSymbolC s (net i)) 0
            ((chunksOf 3 symbols).take n) ++
          (((chunksOf 3 symbols).drop n).flatten).map
            (fun s => genericFailure s ("Processing timeout"))) ∧
    (runBatchA symbols timeAt net).map (fun r => r.symbol) = symbols ∧
    (runBatchC symbols timeAt net).map (fun r => r.symbol) = symbols := by
  refine ⟨?_, ?_, runBatchA_map_symbol symbols timeAt net,
    runBatchC_map_symbol symbols timeAt net⟩
  · obtain ⟨n, _, hwin, hstop, heq⟩ :=
      dispatchWindowsDeadline_spec 45000 timeAt (fun i s => fetchSingleSymbol s (net i))
        timeoutMsgA (chunksOf 8 symbols) 0 0
    exact ⟨n, fun m hm => by simpa using hwin m hm, fun h => by simpa using hstop h, heq⟩
  · obtain ⟨n, _, hwin, hstop, heq⟩ :=
      dispatchWindowsDeadline_spec 50000 timeAt (fun i s => fetchSingleSymbolC s (net i))
        ("Processing timeout") (chunksOf 3 symbols) 0 0
    exact ⟨n, fun m hm => by simpa using hwin m hm, fun h => by simpa using hstop h, heq⟩

/-- C5 witness: in a concrete run whose clock already exceeded the deadline
at the first boundary, the single requested symbol resolves to the timeout
failure; with an idle clock every occurrence is fetched. -/
theorem deadline_windowing_witness :
    (runBatchA ["A"] timeZero netAllOk).map (fun r => r.symbol) = ["A"] ∧
    runBatchA ["A"] (fun _ => 46000) netAllOk = [genericFailure "A" timeoutMsgA] :=
  ⟨(deadline_windowing ["A"] timeZero netAllOk).2.2.1, by decide⟩

/-- C9: the requested list is not deduplicated: each occurrence is
dispatched as its own fetch and produces its own outcome, the meta counters
are computed over the full occurrence list, while data and errors are keyed
by symbol with overwriting; concretely, requesting the same symbol twice
with both occurrences succeeding yields totalSymbols and successfulCount 2
but a single data key holding the outcome of the second occurrence, so the
counters exceed the number of keys. -/
theorem occurrence_accounting :
    (∀ (symbols : List String) (timeAt : Nat → Nat) (net : Nat → NetOutcome),
      (runBatchA symbols timeAt net).map (fun r => r.symbol) = symbols ∧
      (compileResponse symbols (runBatchA symbols timeAt net)).totalSymbols =
        symbols.length ∧
      (compileResponse symbols (runBatchA symbols timeAt net)).successfulCount +
        (compileResponse symbols (runBatchA symbols timeAt net)).failedCount =
        symbols.length) ∧
    ((outResp (handlerA ["A", "A"] "quote" sessOK timeZero netAllOk)).totalSymbols = 2 ∧
     (outResp (handlerA ["A", "A"] "quote" sessOK timeZero netAllOk)).successfulCount = 2 ∧
     (outResp (handlerA ["A", "A"] "quote" sessOK timeZero netAllOk)).failedCount = 0 ∧
     (outResp (handlerA ["A", "A"] "quote" sessOK timeZero netAllOk)).data =
       [("A", some "payload1")] ∧
     (outResp (handlerA ["A", "A"] "quote" sessOK timeZero netAllOk)).errors = [] ∧
     (keysOf (outResp (handlerA ["A", "A"] "quote" sessOK timeZero netAllOk)).data).length +
       (keysOf (outResp (handlerA ["A", "A"] "quote" sessOK timeZero netAllOk)).errors).length <
       (outResp (handlerA ["A", "A"] "quote" sessOK timeZero netAllOk)).totalSymbols) := by
  constructor
  · intro symbols timeAt net
    have hmap := runBatchA_map_symbol symbols timeAt net
    have hlen : (runBatchA symbols timeAt net).length = symbols.length := by
      calc (runBatchA symbols timeAt net).length
          = ((runBatchA symbols timeAt net).map (fun r => r.symbol)).length :=
            (List.length_map _ _).symm
        _ = symbols.length := by rw [hmap]
    refine ⟨hmap, rfl, ?_⟩
    calc (compileResponse symbols (runBatchA symbols timeAt net)).successfulCount +
          (compileResponse symbols (runBatchA symbols timeAt net)).failedCount
        = ((runBatchA symbols timeAt net).filter (fun r => r.success)).length +
          ((runBatchA symbols timeAt net).filter (fun r => !r.success)).length := rfl
      _ = (runBatchA symbols timeAt net).length :=
          length_filter_partition (runBatchA symbols timeAt net)
      _ = symbols.length := hlen
  · decide

/-- C9 witness: a duplicated occurrence is dispatched as its own fetch. -/
theorem occurrence_accounting_witness :
    (runBatchA ["X", "X", "Y"] timeZero netAllOk).map (fun r => r.symbol) =
      ["X", "X", "Y"] :=
  (occurrence_accounting.1 ["X", "X", "Y"] timeZero netAllOk).1

/-- C1 (amended): for every non-empty duplicate-free requested symbol list,
the union of the data keys and error keys of the compiled batch result is
exactly the requested symbol set and the two key sets are disjoint; with
duplicated occurrences the union still equals the deduplicated set but
exclusivity can fail. -/
theorem batch_key_partition (symbols : List String) (timeAt : Nat → Nat)
    (net : Nat → NetOutcome) (_hne : symbols ≠ []) (hnd : symbols.Nodup) :
    (∀ x, (x ∈ keysOf (compileResponse symbols (runBatchA symbols timeAt net)).data ∨
        x ∈ keysOf (compileResponse symbols (runBatchA symbols timeAt net)).errors) ↔
        x ∈ symbols) ∧
    (∀ x, x ∈ keysOf (compileResponse symbols (runBatchA symbols timeAt net)).data →
        x ∉ keysOf (compileResponse symbols (runBatchA symbols timeAt net)).errors) := by
  have hsym := runBatchA_map_symbol symbols timeAt net
  exact ⟨fun x => coverage_compile symbols _ hsym x,
    fun x hd => disjoint_compile symbols _ hsym hnd x hd⟩

/-- C1 witness: on the duplicate-free request list A, B with a mixed
outcome, every requested symbol lands in exactly one key set. -/
theorem batch_key_partition_witness :
    ("A" ∈ keysOf (compileResponse ["A", "B"] (runBatchA ["A", "B"] timeZero netMixed)).data ∨
     "A" ∈ keysOf (compileResponse ["A", "B"] (runBatchA ["A", "B"] timeZero netMixed)).errors) ∧
    ¬("B" ∈ keysOf (compileResponse ["A", "B"] (runBatchA ["A", "B"] timeZero netMixed)).data ∧
      "B" ∈ keysOf (compileResponse ["A", "B"] (runBatchA ["A", "B"] timeZero netMixed)).errors) :=
  ⟨((batch_key_partition ["A", "B"] timeZero netMixed (by decide) (by decide)).1 "A").mpr
      (by decide),
   fun hb =>
     (batch_key_partition ["A", "B"] timeZero netMixed (by decide) (by decide)).2 "B"
       hb.1 hb.2⟩

/-- C1 counterexample: requesting the same symbol twice, with one
occurrence succeeding and the other failing, puts the symbol in both the
data keys and the error keys, so the two key sets are not disjoint and the
symbol does not appear in exactly one of the two maps. -/
theorem duplicate_symbol_key_overlap :
    keysOf (outResp (handlerA ["A", "A"] "quote" sessOK timeZero netMixed)).data = ["A"] ∧
    keysOf (outResp (handlerA ["A", "A"] "quote" sessOK timeZero netMixed)).errors = ["A"] ∧
    "A" ∈ keysOf (outResp (handlerA ["A", "A"] "quote" sessOK timeZero netMixed)).data ∧
    "A" ∈ keysOf (outResp (handlerA ["A", "A"] "quote" sessOK timeZero netMixed)).errors := by
  decide

/-- C2 (amended): in the enhanced batch handler the response status is a
pure function of the outcome counts over a valid request with an
established session: 200 exactly when nothing failed, 207 exactly on a mix,
and 502 (distinct from 200) exactly when nothing succeeded; the simple
variants instead answer 200 whenever anything succeeded and 207 when
everything failed. -/
theorem enhanced_status_selection (symbols : List String) (endpoint : String)
    (navs : Nat → NavResponses) (net : Nat → NetOutcome) (ck : String)
    (hne : symbols ≠ []) (hep : endpoint ∈ endpointKeysB)
    (hsess : getSessionCookies navs = Except.ok ck) :
    ∃ st resp, handlerB symbols endpoint navs net = HandlerOutcome.batch st resp ∧
      resp.successfulCount + resp.failedCount = symbols.length ∧
      ((st = 200 ↔ resp.failedCount = 0) ∧
       (st = 207 ↔ (0 < resp.successfulCount ∧ 0 < resp.failedCount)) ∧
       (st = 502 ↔ resp.successfulCount = 0)) := by
  have hlen : 0 < symbols.length := List.length_pos.mpr hne
  have hguard : ¬(symbols.length = 0 ∨ endpoint ∉ endpointKeysB) := by
    push_neg
    exact ⟨by omega, hep⟩
  have hmap := runBatchB_map_symbol symbols endpoint net
  have hrl : (dispatchWindows (fun i s => fetchNseData s endpoint (net i)) 0
      (chunksOf 4 symbols)).length = symbols.length := by
    calc (dispatchWindows (fun i s => fetchNseData s endpoint (net i)) 0
          (chunksOf 4 symbols)).length
        = ((dispatchWindows (fun i s => fetchNseData s endpoint (net i)) 0
            (chunksOf 4 symbols)).map (fun r => r.symbol)).length :=
          (List.length_map _ _).symm
      _ = symbols.length := by rw [hmap]
  have hsum : (compileResponse symbols (dispatchWindows
        (fun i s => fetchNseData s endpoint (net i)) 0 (chunksOf 4 symbols))).successfulCount +
      (compileResponse symbols (dispatchWindows
        (fun i s => fetchNseData s endpoint (net i)) 0 (chunksOf 4 symbols))).failedCount =
      symbols.length := by
    calc (compileResponse symbols (dispatchWindows
            (fun i s => fetchNseData s endpoint (net i)) 0 (chunksOf 4 symbols))).successfulCount +
          (compileResponse symbols (dispatchWindows
            (fun i s => fetchNseData s endpoint (net i)) 0 (chunksOf 4 symbols))).failedCount
        = ((dispatchWindows (fun i s => fetchNseData s endpoint (net i)) 0
            (chunksOf 4 symbols)).filter (fun r => r.success)).length +
          ((dispatchWindows (fun i s => fetchNseData s endpoint (net i)) 0
            (chunksOf 4 symbols)).filter (fun r => !r.success)).length := rfl
      _ = (dispatchWindows (fun i s => fetchNseData s endpoint (net i)) 0
            (chunksOf 4 symbols)).length := length_filter_partition _
      _ = symbols.length := hrl
  unfold handlerB
  rw [if_neg hguard, hsess]
  refine ⟨_, _, rfl, hsum, ?_⟩
  split_ifs with hf hs <;> refine ⟨?_, ?_, ?_⟩ <;> constructor <;> intro <;> omega

/-- C2 witness: a valid two-symbol request through the enhanced handler
with an established session yields a status governed by the counts. -/
theorem enhanced_status_selection_witness :
    ∃ st resp, handlerB ["A", "B"] "quote" navsAllOk netMixed =
        HandlerOutcome.batch st resp ∧
      resp.successfulCount + resp.failedCount = (["A", "B"] : List String).length ∧
      ((st = 200 ↔ resp.failedCount = 0) ∧
       (st = 207 ↔ (0 < resp.successfulCount ∧ 0 < resp.failedCount)) ∧
       (st = 502 ↔ resp.successfulCount = 0)) :=
  enhanced_status_selection ["A", "B"] "quote" navsAllOk netMixed
    (mergeCookiesB ((okResp "").setCookie ++ ", " ++ (okResp "").setCookie))
    (by decide) (by decide) rfl

/-- C2 counterexample: the simple batch handler answers a mixed outcome
with 200 (not 207) and an all-failure outcome with 207 (not 502 or 503). -/
theorem simple_variant_mixed_status :
    outStatus (handlerA ["RELIANCE", "TCS"] "quote" sessOK timeZero netMixed) = 200 ∧
    (outResp (handlerA ["RELIANCE", "TCS"] "quote" sessOK timeZero netMixed)).successfulCount = 1 ∧
    (outResp (handlerA ["RELIANCE", "TCS"] "quote" sessOK timeZero netMixed)).failedCount = 1 ∧
    outStatus (handlerA ["RELIANCE", "TCS"] "quote" sessOK timeZero netAll401) = 207 ∧
    (outResp (handlerA ["RELIANCE", "TCS"] "quote" sessOK timeZero netAll401)).successfulCount = 0 := by
  decide

/-- C3 (amended): the simple batch handler does not abort on session
failure: it swallows the error, proceeds to windowing with an empty cookie
string, still gives every requested symbol an outcome, and compiles a batch
result covering every requested symbol; the enhanced variant instead aborts
with a fatal 503. -/
theorem session_failure_degradation (symbols : List String) (endpoint msg : String)
    (timeAt : Nat → Nat) (net : Nat → NetOutcome) (hne : symbols ≠ []) :
    sessionA (NetOutcome.fail msg) = "" ∧
    ∃ resp, handlerA symbols endpoint (NetOutcome.fail msg) timeAt net =
        HandlerOutcome.batch (if 0 < resp.successfulCount then 200 else 207) resp ∧
      resp.totalSymbols = symbols.length ∧
      (runBatchA symbols timeAt net).map (fun r => r.symbol) = symbols ∧
      (∀ x, x ∈ symbols → (x ∈ keysOf resp.data ∨ x ∈ keysOf resp.errors)) := by
  have hlen : ¬(symbols.length = 0) := by
    have := List.length_pos.mpr hne
    omega
  refine ⟨rfl, compileResponse symbols (runBatchA symbols timeAt net), ?_, rfl,
    runBatchA_map_symbol symbols timeAt net, ?_⟩
  · unfold handlerA
    rw [if_neg hlen]
  · intro x hx
    exact (coverage_compile symbols _ (runBatchA_map_symbol symbols timeAt net) x).mpr hx

/-- C3 witness: a concrete one-symbol run whose session request is rejected
still compiles a covering batch result. -/
theorem session_failure_degradation_witness :
    sessionA (NetOutcome.fail "boom") = "" ∧
    ∃ resp, handlerA ["A"] "quote" (NetOutcome.fail "boom") timeZero netAllOk =
        HandlerOutcome.batch (if 0 < resp.successfulCount then 200 else 207) resp ∧
      resp.totalSymbols = (["A"] : List String).length ∧
      (runBatchA ["A"] timeZero netAllOk).map (fun r => r.symbol) = ["A"] ∧
      (∀ x, x ∈ (["A"] : List String) →
        (x ∈ keysOf resp.data ∨ x ∈ keysOf resp.errors)) :=
  session_failure_degradation ["A"] "quote" "boom" timeZero netAllOk (by decide)

/-- C3 counterexample: the enhanced batch handler aborts on session
failure: after the three rejected attempts it answers a single fatal 503
carrying the session error, not a batch result with per-symbol reasons; the
single-symbol session proxy likewise aborts with its 500 session-failure
response. -/
theorem enhanced_variant_session_abort :
    isBatchOutcome (handlerB ["RELIANCE"] "quote" navsAllFail netAllOk) = false ∧
    handlerB ["RELIANCE"] "quote" navsAllFail netAllOk =
      HandlerOutcome.fatal 503
        ("Failed to establish NSE session after 3 attempts. Last error: boom") ∧
    nseProxyHandler (some "RELIANCE") "quote" (Except.error "boom")
      (NetOutcome.resp (okResp "x")) = ProxyOutcome.sessionFailure "boom" :=
  ⟨rfl, rfl, rfl⟩

/-- C8 (amended): an empty symbol list is rejected with the 400 usage
payload before any network activity in both batch handlers; the unknown
endpoint 400 (listing the valid endpoint kinds) exists only in the enhanced
handler, whose guard also keeps the invalid-endpoint input error out of the
compiled batch result; the simple handler ignores the endpoint parameter
and proceeds. -/
theorem input_validation (symbols : List String) (endpoint s : String)
    (sessionNet : NetOutcome) (timeAt : Nat → Nat) (net : Nat → NetOutcome)
    (navs : Nat → NavResponses) (net1 : NetOutcome) :
    (handlerA [] endpoint sessionNet timeAt net = HandlerOutcome.badRequest) ∧
    ((symbols.length = 0 ∨ endpoint ∉ endpointKeysB) →
      handlerB symbols endpoint navs net = HandlerOutcome.badRequest) ∧
    (endpoint ∈ endpointKeysB →
      fetchNseData s endpoint net1 = fetchNseDataChecked s net1) ∧
    (∀ st resp, handlerB symbols endpoint navs net = HandlerOutcome.batch st resp →
      symbols ≠ [] ∧ endpoint ∈ endpointKeysB) := by
  refine ⟨rfl, ?_, ?_, ?_⟩
  · intro h
    unfold handlerB
    rw [if_pos h]
  · intro he
    unfold fetchNseData
    rw [if_neg (by simpa using he)]
  · intro st resp h
    by_cases hg : symbols.length = 0 ∨ endpoint ∉ endpointKeysB
    · unfold handlerB at h
      rw [if_pos hg] at h
      exact absurd h (by simp)
    · push_neg at hg
      refine ⟨?_, hg.2⟩
      intro hEq
      exact hg.1 (by rw [hEq]; rfl)

/-- C8 witness: concrete rejections of an empty symbol list by both
handlers and of an unknown endpoint by the enhanced handler, and the
guarded fetch agreeing with its checked form. -/
theorem input_validation_witness :
    handlerA [] "quote" sessOK timeZero netAllOk = HandlerOutcome.badRequest ∧
    handlerB ["A"] "bogus" navsAllFail netAllOk = HandlerOutcome.badRequest ∧
    fetchNseData "A" "quote" (NetOutcome.fail "x") =
      fetchNseDataChecked "A" (NetOutcome.fail "x") :=
  ⟨(input_validation [] "quote" "A" sessOK timeZero netAllOk navsAllFail
      (NetOutcome.fail "x")).1,
   (input_validation ["A"] "bogus" "A" sessOK timeZero netAllOk navsAllFail
      (NetOutcome.fail "x")).2.1 (Or.inr (by decide)),
   (input_validation ["A"] "quote" "A" sessOK timeZero netAllOk navsAllFail
      (NetOutcome.fail "x")).2.2.1 (by decide)⟩

/-- C8 counterexample: the simple batch handler accepts an unrecognized
endpoint kind: instead of answering 400 before any network call, it
dispatches the upstream fetch (the network payload reaches the response)
and answers 200. -/
theorem unknown_endpoint_accepted :
    handlerA ["A"] "bogus" sessOK timeZero netAllOk ≠ HandlerOutcome.badRequest ∧
    outStatus (handlerA ["A"] "bogus" sessOK timeZero netAllOk) = 200 ∧
    (outResp (handlerA ["A"] "bogus" sessOK timeZero netAllOk)).data =
      [("A", some "payload0")] ∧
    "bogus" ∉ endpointKeysB ∧ "bogus" ∉ nseEndpointKeys := by
  decide
